import Mathlib

/-!
Verification of go-eww-workspaces (package `program`).

The embedding follows the auto-detecting variant of the program package
(the one containing `detectCommand`), which the spec treats as
authoritative; the two other near-duplicate variants agree on all the
behavior modelled here except that they hard-code the fallback tool name.

Modelling decisions:
* Go slices `states`/`visible` of length `endWS+1 = 11` become functions
  `Fin 11 → α`; a write `states[n] = v` with `n` of Go type `int` becomes
  `sliceSet`, which returns `none` (a runtime panic) when `n` is outside
  `0..10`, exactly as a Go index-out-of-range panic.
* Subprocess and file I/O are abstracted as inputs: the workspace fetch
  becomes an `Except String (List Workspace)` argument, the monitors file
  becomes an oracle `Nat → Option (List MonitorInfo)` giving, for each
  200ms poll tick, either a successfully parsed `[]MonitorInfo`
  (`some infos`) or an unreadable / empty / unparseable read (`none`);
  the overall context timeout becomes fuel.
* Standard-output effects are made explicit: `render` returns the list of
  lines it prints (`fmt.Println` calls), in order.
-/

/-- Go struct `Workspace` (JSON fields of `get_workspaces` records). -/
structure Workspace where
  name : String
  num : Int
  focused : Bool
  urgent : Bool
  output : String
deriving Repr, DecidableEq

/-- Go struct `MonitorInfo` (one row of the monitors JSON file). -/
structure MonitorInfo where
  monitor : String
  output : String
deriving Repr, DecidableEq

/-- Go constant `startWS = 1`. -/
def startWS : Nat := 1

/-- Go constant `endWS = 10`. -/
def endWS : Nat := 10

/-- The per-slot arrays of `render`: Go slices of length `endWS+1 = 11`. -/
abbrev Slots (α : Type) : Type := Fin 11 → α

/-- A Go slice write `f[n] = v`: `none` models the index-out-of-range
panic when `n < 0` or `n > 10`. -/
def sliceSet {α : Type} (f : Slots α) (n : Int) (v : α) : Option (Slots α) :=
  if 0 ≤ n ∧ n < 11 then
    some (fun j => if (j.val : Int) = n then v else f j)
  else none

/-- `states` after the initialization loop: Go zero value `""` at the
unused index 0, `"unoccupied"` at indices `startWS..endWS`. -/
def initStates : Slots String :=
  fun i => if i.val = 0 then "" else "unoccupied"

/-- `visible` after the initialization loop: Go zero value `false` at the
unused index 0, `true` at indices `startWS..endWS`. -/
def initVisible : Slots Bool :=
  fun i => if i.val = 0 then false else true

/-- The `switch` in `render` classifying one workspace record:
`urgent` beats `focused` beats the default `occupied`. -/
def classify (ws : Workspace) : String :=
  if ws.urgent then "urgent" else if ws.focused then "focused" else "occupied"

/-- One iteration of `render`'s `for _, ws := range wss` loop: skip
records on other outputs, otherwise write `states[ws.Num]` and
`visible[ws.Num]` (propagating a panic as `none`). -/
def applyWs (output : String) (acc : Option (Slots String × Slots Bool))
    (ws : Workspace) : Option (Slots String × Slots Bool) :=
  match acc with
  | none => none
  | some (states, visible) =>
    if ws.output ≠ output then some (states, visible)
    else
      match sliceSet states ws.num (classify ws) with
      | none => none
      | some states2 =>
        match sliceSet visible ws.num true with
        | none => none
        | some visible2 => some (states2, visible2)

/-- The state-computation part of `render`: initialization loop followed
by the loop over the fetched workspace list. `none` is a panic on an
out-of-range `Num`. -/
def processWorkspaces (output : String) (wss : List Workspace) :
    Option (Slots String × Slots Bool) :=
  wss.foldl (applyWs output) (some (initStates, initVisible))

/-- The environment `detectCommand` probes: the `PATH` variable's value,
the result of `exec.LookPath` for each tool, and whether the
`swaymsg -t get_version` probe succeeds within its 300ms timeout. -/
structure ExecEnv where
  path : String
  swaymsgLookPath : Option String
  swayGetVersionOk : Bool
  i3msgLookPath : Option String
deriving Repr, DecidableEq

/-- Return value of `detectCommand`: the resolved `swaymsg` path when it
is on PATH and its version probe succeeds; else the resolved `i3-msg`
path when on PATH (no functional check); else the bare name `"i3-msg"`. -/
def detectCommand (env : ExecEnv) : String :=
  match env.swaymsgLookPath with
  | some swayPath =>
    if env.swayGetVersionOk then swayPath
    else
      match env.i3msgLookPath with
      | some i3Path => i3Path
      | none => "i3-msg"
  | none =>
    match env.i3msgLookPath with
    | some i3Path => i3Path
    | none => "i3-msg"

/-- The line `fmt.Println("PATH:", os.Getenv("PATH"))` that every call of
`detectCommand` writes to standard output before probing. -/
def detectCommandStdout (env : ExecEnv) : String :=
  "PATH: " ++ env.path

/-- Go constant `btnFormat` applied to its five `Sprintf` arguments
`(detectCommand(), i, visible[i], states[i], i)`. -/
def btnFormat (cmd : String) (i : Nat) (visible : Bool) (cls : String) : String :=
  "(button :onclick \x22" ++ cmd ++ " \x27workspace " ++ toString i ++ "\x27\x22 :visible "
    ++ (if visible then "true" else "false")
    ++ " :class \x22" ++ cls ++ "\x22 \x22" ++ toString i ++ "\x22)"

/-- Go constant `ewwFormat` applied to its `Sprintf` argument. -/
def ewwFormat (inner : String) : String :=
  "(box :class \x22workspaces\x22 :orientation \x22h\x22 :halign \x22start\x22 "
    ++ ":spacing \x226\x22 :space-evenly \x22true\x22 " ++ inner ++ ")"

/-- The indices of `render`'s button-building loop `for i := startWS;
i <= endWS; i++`, as indices into the length-11 slices. -/
def buttonIdx : List (Fin 11) := [1, 2, 3, 4, 5, 6, 7, 8, 9, 10]

/-- The ten button tokens of one widget, in ascending slot order. Each
token's command argument is a fresh `detectCommand()` call made inside
`fmt.Sprintf`. -/
def renderParts (cmd : String) (states : Slots String) (visible : Slots Bool) :
    List String :=
  buttonIdx.map (fun i => btnFormat cmd i.val (visible i) (states i))

/-- Outcome of one `render` call: `ok` carries every line printed to
standard output in order; `fetchErr` is the error return when the
workspace fetch fails (nothing printed); `crash` is the runtime panic on
an out-of-range slot write. -/
inductive RenderResult where
  | ok (stdout : List String)
  | fetchErr (e : String)
  | crash
deriving Repr, DecidableEq

/-- The lines a `RenderResult` wrote to standard output. -/
def RenderResult.printed : RenderResult → List String
  | RenderResult.ok lines => lines
  | RenderResult.fetchErr _ => []
  | RenderResult.crash => []

/-- `render(cmdName, output)` with the workspace fetch abstracted as its
result. On fetch failure the error is returned before anything is
printed. On success the button loop runs `detectCommand()` once per
button (each call printing its PATH line), then the widget is printed. -/
def render (env : ExecEnv) (output : String)
    (fetch : Except String (List Workspace)) : RenderResult :=
  match fetch with
  | Except.error e => RenderResult.fetchErr e
  | Except.ok wss =>
    match processWorkspaces output wss with
    | none => RenderResult.crash
    | some (states, visible) =>
      RenderResult.ok
        (List.replicate 10 (detectCommandStdout env)
          ++ [ewwFormat (String.intercalate " "
                (renderParts (detectCommand env) states visible))])

/-- The `for scanner.Scan()` loop of `subscribeAndRender`, one fetch
result per subscription event line. Returns the accumulated standard
output, the accumulated `log.Println` messages, and whether a render
panic aborted the loop. A failed cycle logs `render error:` and
continues with the next event. -/
def eventLoop (env : ExecEnv) (output : String) :
    List (Except String (List Workspace)) → List String × List String × Bool
  | [] => ([], [], false)
  | fetch :: rest =>
    match render env output fetch with
    | RenderResult.ok lines =>
      let r := eventLoop env output rest
      (lines ++ r.1, r.2.1, r.2.2)
    | RenderResult.fetchErr e =>
      let r := eventLoop env output rest
      (r.1, ("render error: " ++ e) :: r.2.1, r.2.2)
    | RenderResult.crash => ([], [], true)

/-- The lookup loop of `readMonitorOutput` over the parsed monitors
array: first record whose `Monitor` field equals the requested name
wins; an exhausted array is the NotFound error. -/
def findMonitor (path : String) (infos : List MonitorInfo) (monitor : String) :
    Except String String :=
  match infos with
  | [] => Except.error ("monitor \x22" ++ monitor ++ "\x22 not found in " ++ path)
  | mi :: rest =>
    if mi.monitor = monitor then Except.ok mi.output
    else findMonitor path rest monitor

/-- `readMonitorOutput`'s polling phase: every 200ms tick, read the file
and try to parse it (`reads k` is `none` while the file is unreadable,
empty or unparseable); fuel is the number of ticks the 5s context allows.
As soon as one read parses, look the monitor up immediately. -/
def readMonitorOutput (reads : Nat → Option (List MonitorInfo))
    (path monitor : String) : Nat → Nat → Except String String
  | 0, _ => Except.error ("parsing JSON " ++ path ++ ": context deadline exceeded")
  | fuel + 1, k =>
    match reads k with
    | some infos => findMonitor path infos monitor
    | none => readMonitorOutput reads path monitor fuel (k + 1)

/-- The last record of `wss` on output `out` with slot number `n` — the
record whose write to `states[n]`/`visible[n]` survives the loop. -/
def lastMatch (out : String) (n : Int) : List Workspace → Option Workspace
  | [] => none
  | ws :: rest =>
    match lastMatch out n rest with
    | some w => some w
    | none => if ws.output = out ∧ ws.num = n then some ws else none

/-- Observer: the state string the finished loop left at slot `i`
(`none` when the loop panicked). -/
def slotState (output : String) (wss : List Workspace) (i : Fin 11) :
    Option String :=
  (processWorkspaces output wss).map (fun p => p.1 i)

/-- Observer: the visibility flag the finished loop left at slot `i`
(`none` when the loop panicked). -/
def slotVisible (output : String) (wss : List Workspace) (i : Fin 11) :
    Option Bool :=
  (processWorkspaces output wss).map (fun p => p.2 i)

/-- A concrete host environment for witnesses: `swaymsg` and `i3-msg`
both on PATH and `swaymsg` functional. -/
def envEx : ExecEnv :=
  ⟨"/usr/bin", some "/usr/bin/swaymsg", true, some "/usr/bin/i3-msg"⟩

theorem applyWs_none (out : String) (ws : Workspace) : applyWs out none ws = none := rfl

theorem foldl_applyWs_none (out : String) (l : List Workspace) :
    List.foldl (applyWs out) none l = none := by
  induction l with
  | nil => rfl
  | cons ws l ih => rw [List.foldl_cons, applyWs_none]; exact ih

theorem lastMatch_append_single (out : String) (n : Int) (l : List Workspace)
    (ws : Workspace) :
    lastMatch out n (l ++ [ws]) =
      if ws.output = out ∧ ws.num = n then some ws else lastMatch out n l := by
  induction l with
  | nil => simp [lastMatch]
  | cons x l ih =>
    rw [List.cons_append, lastMatch, ih]
    by_cases h : ws.output = out ∧ ws.num = n
    · rw [if_pos h, if_pos h]
    · rw [if_neg h, if_neg h, lastMatch]

theorem foldl_applyWs_spec (out : String) (l : List Workspace) :
    ∀ (s0 : Slots String) (v0 : Slots Bool) (s : Slots String) (v : Slots Bool),
      List.foldl (applyWs out) (some (s0, v0)) l = some (s, v) →
      ∀ i : Fin 11,
        s i = (match lastMatch out (i.val : Int) l with
               | some w => classify w
               | none => s0 i) ∧
        v i = (match lastMatch out (i.val : Int) l with
               | some _ => true
               | none => v0 i) := by
  induction l using List.reverseRecOn with
  | nil =>
    intro s0 v0 s v h i
    rw [List.foldl_nil] at h
    injection h with h2
    injection h2 with hs hv
    subst hs; subst hv
    simp [lastMatch]
  | append_singleton l ws ih =>
    intro s0 v0 s v h i
    rw [List.foldl_append, List.foldl_cons, List.foldl_nil] at h
    rcases heq : List.foldl (applyWs out) (some (s0, v0)) l with _ | ⟨s1, v1⟩
    · rw [heq, applyWs_none] at h
      exact Option.noConfusion h
    · rw [heq] at h
      rw [lastMatch_append_single]
      by_cases hout : ws.output = out
      · by_cases hb : 0 ≤ ws.num ∧ ws.num < 11
        · have happ : applyWs out (some (s1, v1)) ws =
              some (fun j => if (j.val : Int) = ws.num then classify ws else s1 j,
                    fun j => if (j.val : Int) = ws.num then true else v1 j) := by
            simp [applyWs, hout, sliceSet, hb]
          rw [happ] at h
          injection h with h2
          injection h2 with hs hv
          subst hs; subst hv
          by_cases hn : ws.num = (i.val : Int)
          · rw [if_pos ⟨hout, hn⟩]
            simp [hn]
          · rw [if_neg (fun hc => hn hc.2)]
            have hn2 : ¬ ((i.val : Int) = ws.num) := fun hc => hn hc.symm
            have h1 := ih s0 v0 s1 v1 heq i
            simpa [hn2] using h1
        · have happ : applyWs out (some (s1, v1)) ws = none := by
            simp [applyWs, hout, sliceSet, hb]
          rw [happ] at h
          exact Option.noConfusion h
      · have happ : applyWs out (some (s1, v1)) ws = some (s1, v1) := by
          simp [applyWs, hout]
        rw [happ] at h
        injection h with h2
        injection h2 with hs hv
        subst hs; subst hv
        rw [if_neg (fun hc => hout hc.1)]
        exact ih s0 v0 s1 v1 heq i

theorem foldl_applyWs_isSome (out : String) (l : List Workspace) :
    ∀ (s0 : Slots String) (v0 : Slots Bool),
      (∀ ws ∈ l, ws.output = out → 0 ≤ ws.num ∧ ws.num < 11) →
      ∃ s v, List.foldl (applyWs out) (some (s0, v0)) l = some (s, v) := by
  induction l with
  | nil => exact fun s0 v0 _ => ⟨s0, v0, rfl⟩
  | cons ws l ih =>
    intro s0 v0 hb
    rw [List.foldl_cons]
    by_cases hout : ws.output = out
    · have hn := hb ws (List.mem_cons_self ws l) hout
      have : applyWs out (some (s0, v0)) ws =
          some (fun j => if (j.val : Int) = ws.num then classify ws else s0 j,
                fun j => if (j.val : Int) = ws.num then true else v0 j) := by
        simp [applyWs, hout, sliceSet, hn]
      rw [this]
      exact ih _ _ (fun w hw ho => hb w (List.mem_cons_of_mem ws hw) ho)
    · have : applyWs out (some (s0, v0)) ws = some (s0, v0) := by
        simp [applyWs, hout]
      rw [this]
      exact ih s0 v0 (fun w hw ho => hb w (List.mem_cons_of_mem ws hw) ho)

theorem slotState_visible_eq (output : String) (wss : List Workspace) (i : Fin 11)
    (hsome : (processWorkspaces output wss).isSome = true) :
    slotState output wss i =
      some (match lastMatch output (i.val : Int) wss with
            | some w => classify w
            | none => initStates i) ∧
    slotVisible output wss i =
      some (match lastMatch output (i.val : Int) wss with
            | some _ => true
            | none => initVisible i) := by
  obtain ⟨⟨s, v⟩, hp⟩ := Option.isSome_iff_exists.mp hsome
  have h := foldl_applyWs_spec output wss initStates initVisible s v hp i
  constructor
  · rw [slotState, hp, Option.map_some']
    exact congrArg some h.1
  · rw [slotVisible, hp, Option.map_some']
    exact congrArg some h.2

theorem lastMatch_eq_none (out : String) (n : Int) (wss : List Workspace)
    (h : ∀ ws ∈ wss, ws.output = out → ws.num ≠ n) :
    lastMatch out n wss = none := by
  induction wss with
  | nil => rfl
  | cons ws l ih =>
    rw [lastMatch, ih (fun w hw ho => h w (List.mem_cons_of_mem ws hw) ho),
      if_neg (fun hc => h ws (List.mem_cons_self ws l) hc.1 hc.2)]

theorem processWorkspaces_isSome (output : String) (wss : List Workspace)
    (hb : ∀ ws ∈ wss, ws.output = output → 0 ≤ ws.num ∧ ws.num < 11) :
    (processWorkspaces output wss).isSome = true := by
  obtain ⟨s, v, h⟩ := foldl_applyWs_isSome output wss initStates initVisible hb
  rw [processWorkspaces, h]
  rfl

/-- C3: each slot's rendered state follows the priority order
urgent > focused > occupied; in particular a workspace record with
`urgent = true` whose write survives the loop (the last record of the
list at its slot on the target output) yields state `"urgent"`
regardless of its `focused` value. -/
theorem render_state_priority (output : String) (wss : List Workspace)
    (i : Fin 11) (ws : Workspace)
    (hsome : (processWorkspaces output wss).isSome = true)
    (hl : lastMatch output (i.val : Int) wss = some ws) :
    (ws.urgent = true → slotState output wss i = some "urgent") ∧
    (ws.urgent = false → ws.focused = true → slotState output wss i = some "focused") ∧
    (ws.urgent = false → ws.focused = false → slotState output wss i = some "occupied") := by
  have h := (slotState_visible_eq output wss i hsome).1
  rw [hl] at h
  refine ⟨fun hu => ?_, fun hu hf => ?_, fun hu hf => ?_⟩ <;>
    rw [h] <;> simp [classify, hu]
  · simp [hf]
  · simp [hf]

/-- C3 witness: an urgent and focused record at slot 1 renders as
`"urgent"`. -/
theorem render_state_priority_witness :
    (processWorkspaces "eDP-1" [⟨"1", 1, true, true, "eDP-1"⟩]).isSome = true ∧
    slotState "eDP-1" [⟨"1", 1, true, true, "eDP-1"⟩] 1 = some "urgent" :=
  ⟨rfl, (render_state_priority "eDP-1" [⟨"1", 1, true, true, "eDP-1"⟩] 1
    ⟨"1", 1, true, true, "eDP-1"⟩ rfl rfl).1 rfl⟩

/-- C5: a slot in 1..10 with no matching workspace record on the target
output keeps its initialized state `"unoccupied"` and visibility
`true`. -/
theorem render_unmatched_slot (output : String) (wss : List Workspace)
    (i : Fin 11)
    (hsome : (processWorkspaces output wss).isSome = true)
    (hi : 1 ≤ i.val)
    (hno : ∀ ws ∈ wss, ws.output = output → ws.num ≠ (i.val : Int)) :
    slotState output wss i = some "unoccupied" ∧
    slotVisible output wss i = some true := by
  have h := slotState_visible_eq output wss i hsome
  rw [lastMatch_eq_none output (i.val : Int) wss hno] at h
  have hz : ¬ (i.val = 0) := by omega
  obtain ⟨h1, h2⟩ := h
  rw [h1, h2]
  constructor
  · simp [initStates, hz]
  · simp [initVisible, hz]

/-- C5 witness: with no workspace records at all, slot 1 is unoccupied
and visible. -/
theorem render_unmatched_slot_witness :
    (processWorkspaces "eDP-1" ([] : List Workspace)).isSome = true ∧
    slotState "eDP-1" [] 1 = some "unoccupied" ∧
    slotVisible "eDP-1" [] 1 = some true :=
  ⟨rfl,
   (render_unmatched_slot "eDP-1" [] 1 rfl (by decide)
      (fun ws hw => absurd hw (List.not_mem_nil ws))).1,
   (render_unmatched_slot "eDP-1" [] 1 rfl (by decide)
      (fun ws hw => absurd hw (List.not_mem_nil ws))).2⟩

theorem buttonIdx_val_ne_zero : ∀ i ∈ buttonIdx, i.val ≠ 0 := by decide

theorem buttonIdx_one_le_val : ∀ i ∈ buttonIdx, 1 ≤ i.val := by decide

theorem renderParts_congr (cmd : String) (s s2 : Slots String) (v v2 : Slots Bool)
    (h : ∀ i : Fin 11, i.val ≠ 0 → s2 i = s i ∧ v2 i = v i) :
    renderParts cmd s2 v2 = renderParts cmd s v := by
  refine List.map_congr_left (fun i hi => ?_)
  obtain ⟨hs, hv⟩ := h i (buttonIdx_val_ne_zero i hi)
  rw [hs, hv]

/-- C7: a workspace list with duplicate slot numbers on the target
output does not make `render` fail as long as all its matching slot
numbers are within the slice bounds 0..10, and a slot's final state is
the classification of the last matching record at that slot. -/
theorem render_duplicates_last_wins (env : ExecEnv) (output : String)
    (wss : List Workspace) (n : Int) (i : Fin 11)
    (hb : ∀ ws ∈ wss, ws.output = output → 0 ≤ ws.num ∧ ws.num < 11)
    (hn : (i.val : Int) = n)
    (hdup : 2 ≤ (wss.filter (fun ws => ws.output == output && ws.num == n)).length)
    (ws : Workspace) (hl : lastMatch output n wss = some ws) :
    render env output (Except.ok wss) ≠ RenderResult.crash ∧
    slotState output wss i = some (classify ws) := by
  have hsome := processWorkspaces_isSome output wss hb
  obtain ⟨⟨s, v⟩, hp⟩ := Option.isSome_iff_exists.mp hsome
  constructor
  · simp [render, hp]
  · have h := (slotState_visible_eq output wss i hsome).1
    rw [hn, hl] at h
    rw [h]

/-- C7 witness: two records at slot 1 on the target output; the loop
does not crash and the later record (neither urgent nor focused, hence
`"occupied"`) wins over the earlier focused one. -/
theorem render_duplicates_last_wins_witness :
    render envEx "eDP-1"
      (Except.ok [⟨"1", 1, false, true, "eDP-1"⟩, ⟨"1b", 1, false, false, "eDP-1"⟩]) ≠
      RenderResult.crash ∧
    slotState "eDP-1"
      [⟨"1", 1, false, true, "eDP-1"⟩, ⟨"1b", 1, false, false, "eDP-1"⟩] 1 =
      some "occupied" :=
  render_duplicates_last_wins envEx "eDP-1"
    [⟨"1", 1, false, true, "eDP-1"⟩, ⟨"1b", 1, false, false, "eDP-1"⟩] 1 1
    (by decide) (by decide) (by decide) ⟨"1b", 1, false, false, "eDP-1"⟩ rfl

/-- C1 counterexample: a workspace record on the target output with
slot number 11 makes `render` panic with an index-out-of-range write
instead of being silently ignored, and the result differs from the
record-absent render. -/
theorem render_out_of_range_counterexample :
    render envEx "HDMI-1" (Except.ok [⟨"11", 11, false, false, "HDMI-1"⟩]) =
      RenderResult.crash ∧
    render envEx "HDMI-1" (Except.ok [⟨"11", 11, false, false, "HDMI-1"⟩]) ≠
      render envEx "HDMI-1" (Except.ok []) := by
  refine ⟨rfl, fun h => ?_⟩
  have h3 : (0 : Nat) = 11 := congrArg (fun r => r.printed.length) h
  exact absurd h3 (by decide)

/-- C1 (amended): a matching record with slot number 0 is harmless —
its write lands in the unused slice index 0 and the produced result
(markup included) equals the one with the record absent — while a
matching record with slot number below 0 or above 10 makes `render`
panic rather than being ignored. -/
theorem render_slot_zero_ignored (env : ExecEnv) (out : String)
    (wss : List Workspace) (ws : Workspace)
    (hout : ws.output = out) (hzero : ws.num = 0) :
    render env out (Except.ok (wss ++ [ws])) = render env out (Except.ok wss) ∧
    ∀ ws2 : Workspace, ws2.output = out → (ws2.num < 0 ∨ 10 < ws2.num) →
      render env out (Except.ok (wss ++ [ws2])) = RenderResult.crash := by
  constructor
  · rcases heq : processWorkspaces out wss with _ | ⟨s, v⟩
    · have h2 : processWorkspaces out (wss ++ [ws]) = none := by
        rw [processWorkspaces] at heq ⊢
        rw [List.foldl_append, heq, List.foldl_cons, applyWs_none, List.foldl_nil]
      simp [render, heq, h2]
    · have h2 : processWorkspaces out (wss ++ [ws]) =
          some (fun j => if (j.val : Int) = ws.num then classify ws else s j,
                fun j => if (j.val : Int) = ws.num then true else v j) := by
        rw [processWorkspaces] at heq ⊢
        rw [List.foldl_append, heq, List.foldl_cons, List.foldl_nil]
        simp [applyWs, hout, sliceSet, hzero]
      have hparts : renderParts (detectCommand env)
          (fun j => if (j.val : Int) = ws.num then classify ws else s j)
          (fun j => if (j.val : Int) = ws.num then true else v j)
          = renderParts (detectCommand env) s v := by
        apply renderParts_congr
        intro i hi
        rw [hzero]
        constructor <;>
          rw [if_neg (fun hc => hi (by exact_mod_cast hc))]
      simp only [render, h2, heq, hparts]
  · intro ws2 ho2 hr2
    have h2 : processWorkspaces out (wss ++ [ws2]) = none := by
      rw [processWorkspaces, List.foldl_append, List.foldl_cons, List.foldl_nil]
      rcases heq : List.foldl (applyWs out) (some (initStates, initVisible)) wss
        with _ | ⟨s, v⟩
      · rw [applyWs_none]
      · have hnb : ¬ (0 ≤ ws2.num ∧ ws2.num < 11) := by omega
        simp [applyWs, ho2, sliceSet, hnb]
    simp [render, h2]

/-- C1 witness: appending a slot-0 record on the target output to an
empty list leaves the render result unchanged, and a slot-11 record
makes it panic. -/
theorem render_slot_zero_ignored_witness :
    render envEx "HDMI-1" (Except.ok ([] ++ [⟨"0", 0, false, false, "HDMI-1"⟩])) =
      render envEx "HDMI-1" (Except.ok []) ∧
    render envEx "HDMI-1" (Except.ok ([] ++ [⟨"11", 11, false, false, "HDMI-1"⟩])) =
      RenderResult.crash :=
  ⟨(render_slot_zero_ignored envEx "HDMI-1" [] ⟨"0", 0, false, false, "HDMI-1"⟩
      rfl rfl).1,
   (render_slot_zero_ignored envEx "HDMI-1" [] ⟨"0", 0, false, false, "HDMI-1"⟩
      rfl rfl).2 ⟨"11", 11, false, false, "HDMI-1"⟩ rfl (Or.inr (by decide))⟩

/-- C2 (code bug): even a fully successful render cycle writes eleven
lines to standard output, not one — the ten `PATH: ...` debug lines
printed by the `detectCommand()` call embedded in each button's
`fmt.Sprintf` precede the widget line. -/
theorem render_prints_debug_lines :
    (render envEx "eDP-1" (Except.ok [])).printed.length = 11 ∧
    (render envEx "eDP-1" (Except.ok [])).printed.head? =
      some ("PATH: " ++ envEx.path) :=
  ⟨rfl, rfl⟩

/-- C10: whenever `render` succeeds, every one of the ten emitted
buttons carries visibility flag `true`: the flags are initialized to
`true` for slots 1..10 and no code path sets one to `false`, so the
printed markup is the PATH debug lines followed by a widget whose ten
buttons all read `:visible true`. -/
theorem render_visibility_always_true (env : ExecEnv) (output : String)
    (wss : List Workspace) (lines : List String)
    (h : render env output (Except.ok wss) = RenderResult.ok lines) :
    (∀ i : Fin 11, 1 ≤ i.val → slotVisible output wss i = some true) ∧
    ∃ states : Slots String,
      lines = List.replicate 10 (detectCommandStdout env)
        ++ [ewwFormat (String.intercalate " "
              (buttonIdx.map (fun i =>
                btnFormat (detectCommand env) i.val true (states i))))] := by
  rcases heq : processWorkspaces output wss with _ | ⟨s, v⟩
  · rw [render] at h
    simp only [heq] at h
    exact absurd h (by simp)
  · have hsome : (processWorkspaces output wss).isSome = true := by rw [heq]; rfl
    have hv : ∀ i : Fin 11, 1 ≤ i.val → slotVisible output wss i = some true := by
      intro i hi
      have hz : ¬ (i.val = 0) := by omega
      have h2 := (slotState_visible_eq output wss i hsome).2
      rcases hl : lastMatch output (i.val : Int) wss with _ | w
      · rw [hl] at h2
        rw [h2]
        simp [initVisible, hz]
      · rw [hl] at h2
        rw [h2]
    have hvv : ∀ i : Fin 11, 1 ≤ i.val → v i = true := by
      intro i hi
      have ha : slotVisible output wss i = some (v i) := by
        rw [slotVisible, heq, Option.map_some']
      have hb2 := hv i hi
      rw [ha] at hb2
      exact Option.some.inj hb2
    refine ⟨hv, ⟨s, ?_⟩⟩
    rw [render] at h
    simp only [heq] at h
    have hlines := (RenderResult.ok.injEq .. ▸ h : _ = lines)
    rw [← hlines]
    have hmap : renderParts (detectCommand env) s v =
        buttonIdx.map (fun i => btnFormat (detectCommand env) i.val true (s i)) := by
      refine List.map_congr_left (fun i hi => ?_)
      rw [hvv i (buttonIdx_one_le_val i hi)]
    rw [hmap]

/-- C10 witness: with an empty workspace list, slot 1's visibility is
`true` and the printed lines have the all-visible shape. -/
theorem render_visibility_always_true_witness :
    slotVisible "eDP-1" [] 1 = some true ∧
    render envEx "eDP-1" (Except.ok []) =
      RenderResult.ok ((render envEx "eDP-1" (Except.ok [])).printed) :=
  ⟨(render_visibility_always_true envEx "eDP-1" []
      ((render envEx "eDP-1" (Except.ok [])).printed) rfl).1 1 (by decide),
   rfl⟩

/-- C8: command detection prefers the `swaymsg` found on PATH whenever
its version probe succeeds; otherwise it returns the `i3-msg` found on
PATH without any functional check; and when neither tool is on PATH it
returns the bare fallback name `"i3-msg"`. -/
theorem detectCommand_precedence (env : ExecEnv) :
    (∀ p, env.swaymsgLookPath = some p → env.swayGetVersionOk = true →
       detectCommand env = p) ∧
    (∀ q, (env.swaymsgLookPath = none ∨ env.swayGetVersionOk = false) →
       env.i3msgLookPath = some q → detectCommand env = q) ∧
    ((env.swaymsgLookPath = none ∨ env.swayGetVersionOk = false) →
       env.i3msgLookPath = none → detectCommand env = "i3-msg") := by
  refine ⟨fun p hs hv => ?_, fun q hs hi => ?_, fun hs hi => ?_⟩
  · simp [detectCommand, hs, hv]
  · rcases hs with hs | hs
    · simp [detectCommand, hs, hi]
    · rcases hp : env.swaymsgLookPath with _ | p <;>
        simp [detectCommand, hp, hs, hi]
  · rcases hs with hs | hs
    · simp [detectCommand, hs, hi]
    · rcases hp : env.swaymsgLookPath with _ | p <;>
        simp [detectCommand, hp, hs, hi]

/-- C8 witness: with both tools on PATH and `swaymsg` functional,
detection returns the resolved `swaymsg` path. -/
theorem detectCommand_precedence_witness :
    detectCommand envEx = "/usr/bin/swaymsg" :=
  (detectCommand_precedence envEx).1 "/usr/bin/swaymsg" rfl rfl

/-- C6: when the workspace fetch of a cycle fails, `render` returns the
error having printed nothing, and in the event loop the failed cycle
contributes no standard output, one `render error:` log line, and the
remaining events are processed exactly as they would have been. -/
theorem render_fetch_error_skips_cycle (env : ExecEnv) (output e : String)
    (rest : List (Except String (List Workspace))) :
    render env output (Except.error e) = RenderResult.fetchErr e ∧
    (render env output (Except.error e)).printed = [] ∧
    eventLoop env output (Except.error e :: rest) =
      ((eventLoop env output rest).1,
       ("render error: " ++ e) :: (eventLoop env output rest).2.1,
       (eventLoop env output rest).2.2) := by
  refine ⟨rfl, rfl, ?_⟩
  rw [eventLoop]
  rfl

theorem findMonitor_not_found (path : String) (infos : List MonitorInfo)
    (monitor : String) (h : ∀ mi ∈ infos, mi.monitor ≠ monitor) :
    findMonitor path infos monitor =
      Except.error ("monitor \x22" ++ monitor ++ "\x22 not found in " ++ path) := by
  induction infos with
  | nil => rfl
  | cons mi rest ih =>
    rw [findMonitor, if_neg (h mi (List.mem_cons_self mi rest)),
      ih (fun m hm => h m (List.mem_cons_of_mem mi hm))]

theorem readMonitorOutput_first_parse (reads : Nat → Option (List MonitorInfo))
    (path monitor : String) (infos : List MonitorInfo) :
    ∀ (k base fuel : Nat), reads (base + k) = some infos →
      (∀ j, j < k → reads (base + j) = none) → k < fuel →
      readMonitorOutput reads path monitor fuel base =
        findMonitor path infos monitor := by
  intro k
  induction k with
  | zero =>
    intro base fuel hk _ hf
    obtain ⟨f, rfl⟩ := Nat.exists_eq_succ_of_ne_zero (Nat.pos_iff_ne_zero.mp hf)
    rw [readMonitorOutput]
    rw [Nat.add_zero] at hk
    rw [hk]
  | succ k ih =>
    intro base fuel hk hbefore hf
    obtain ⟨f, rfl⟩ := Nat.exists_eq_succ_of_ne_zero
      (Nat.pos_iff_ne_zero.mp (Nat.lt_of_le_of_lt (Nat.zero_le _) hf))
    rw [readMonitorOutput]
    have hb0 : reads base = none := by
      have := hbefore 0 (Nat.succ_pos k)
      rwa [Nat.add_zero] at this
    rw [hb0]
    exact ih (base + 1)
      f
      (by rw [Nat.add_right_comm base 1 k]; exact hk)
      (fun j hj => by
        rw [Nat.add_right_comm base 1 j]
        exact hbefore (j + 1) (Nat.succ_lt_succ hj))
      (Nat.lt_of_succ_lt_succ hf)

/-- C4: as soon as one poll of the monitors file parses successfully as
a `MonitorInfo` array containing no record for the requested monitor,
resolution returns the NotFound error — for every remaining fuel
budget, so no further read is attempted and no remaining timeout is
waited out. -/
theorem readMonitorOutput_not_found_immediate
    (reads : Nat → Option (List MonitorInfo)) (path monitor : String)
    (infos : List MonitorInfo) (k : Nat)
    (hk : reads k = some infos)
    (hbefore : ∀ j, j < k → reads j = none)
    (hno : ∀ mi ∈ infos, mi.monitor ≠ monitor) :
    ∀ fuel, k < fuel →
      readMonitorOutput reads path monitor fuel 0 =
        Except.error ("monitor \x22" ++ monitor ++ "\x22 not found in " ++ path) := by
  intro fuel hf
  rw [readMonitorOutput_first_parse reads path monitor infos k 0 fuel
    (by rwa [Nat.zero_add]) (fun j hj => by rw [Nat.zero_add]; exact hbefore j hj) hf]
  exact findMonitor_not_found path infos monitor hno

/-- C4 witness: a file that always parses as `[{monitor DP-2}]` makes
resolution of `DP-1` fail with NotFound at the very first tick, with
both a minimal and a large fuel budget left. -/
theorem readMonitorOutput_not_found_immediate_witness :
    readMonitorOutput (fun _ => some [⟨"DP-2", "eDP-1"⟩]) "/tmp/monitors.json"
        "DP-1" 1 0 =
      Except.error "monitor \x22DP-1\x22 not found in /tmp/monitors.json" ∧
    readMonitorOutput (fun _ => some [⟨"DP-2", "eDP-1"⟩]) "/tmp/monitors.json"
        "DP-1" 25 0 =
      Except.error "monitor \x22DP-1\x22 not found in /tmp/monitors.json" :=
  ⟨readMonitorOutput_not_found_immediate (fun _ => some [⟨"DP-2", "eDP-1"⟩])
      "/tmp/monitors.json" "DP-1" [⟨"DP-2", "eDP-1"⟩] 0 rfl
      (fun j hj => absurd hj (Nat.not_lt_zero j)) (by decide) 1 (by decide),
   readMonitorOutput_not_found_immediate (fun _ => some [⟨"DP-2", "eDP-1"⟩])
      "/tmp/monitors.json" "DP-1" [⟨"DP-2", "eDP-1"⟩] 0 rfl
      (fun j hj => absurd hj (Nat.not_lt_zero j)) (by decide) 25 (by decide)⟩

/-- C9: once parsed, resolution scans the array for the first record
whose monitor field exactly equals the requested name and returns that
record's output field; in particular the file
`[{monitor DP-1, output eDP-1}]` with requested monitor `DP-1` resolves
to `eDP-1`. -/
theorem findMonitor_exact_match (path monitor outv : String)
    (pre post : List MonitorInfo)
    (hpre : ∀ mi ∈ pre, mi.monitor ≠ monitor) :
    findMonitor path (pre ++ ⟨monitor, outv⟩ :: post) monitor = Except.ok outv ∧
    readMonitorOutput (fun _ => some [⟨"DP-1", "eDP-1"⟩]) "/tmp/monitors.json"
        "DP-1" 25 0 =
      Except.ok "eDP-1" := by
  constructor
  · induction pre with
    | nil => rw [List.nil_append, findMonitor, if_pos rfl]
    | cons mi rest ih =>
      rw [List.cons_append, findMonitor,
        if_neg (hpre mi (List.mem_cons_self mi rest)),
        ih (fun m hm => hpre m (List.mem_cons_of_mem mi hm))]
  · rfl

/-- C9 witness: the spec's concrete example, via the exact-match search
theorem at the singleton array. -/
theorem findMonitor_exact_match_witness :
    findMonitor "/tmp/monitors.json" [⟨"DP-1", "eDP-1"⟩] "DP-1" =
      Except.ok "eDP-1" :=
  (findMonitor_exact_match "/tmp/monitors.json" "DP-1" "eDP-1" [] []
    (fun mi hm => absurd hm (List.not_mem_nil mi))).1
